import Mathlib

/-!
Verification of the reforestation recommendation pipeline.

This file gives a shallow embedding of the core recommendation logic of the
repository: the species catalog (constants/treeDatabase.js), the
compatibility scorer and recommendation service (services/recommendationService.js),
the tree data service with its climate/soil filters
(services/treeDataService.js), the AI-blending step (services/openAIService.js
call sites), the climate retry loop (services/climateService.js), and the
workflow orchestration of hooks/useReforestation.js.

Numbers are modelled as rationals; JavaScript `undefined` fields are modelled
with `Option`; asynchronous collaborator calls are modelled as explicit
outcome parameters/oracles; mutation is modelled by explicit state passing.
-/

/-- A numeric range with `min` and `max` bounds, as in the catalog's
`tempRange` and `rainfallRange` objects. -/
structure NumRange where
  min : ℚ
  max : ℚ
deriving DecidableEq, Repr

/-- A catalog entry from `constants/treeDatabase.js`.  Only the fields read by
the embedded pipeline logic are kept (presentation-only fields such as
`localName`, `family`, `benefits`, `soilPH`, `altitudeRange`, `lifespan`,
`sunlight`, `plantingSeason` and `spacing` are never consulted by the
recommendation code and are omitted).  `hardiness`, `adaptability`,
`nativeBonus`, `isNative` and `nativeRegions` are absent from every shipped
catalog record (JavaScript `undefined`), hence `Option` with default `none`;
some of them can be attached dynamically by `getSuitableTrees`. -/
structure TreeSpecies where
  id : String
  commonName : String
  tempRange : NumRange
  rainfallRange : NumRange
  soilTypes : List String
  growthRate : String
  maxHeight : ℚ
  carbonSequestration : ℚ
  nitrogenFixing : Bool
  biodiversityValue : ℚ
  waterNeeds : String
  hardiness : Option String := none
  adaptability : Option String := none
  nativeBonus : Option ℚ := none
  isNative : Option Bool := none
  nativeRegions : Option (List String) := none
deriving DecidableEq, Repr

/-- Catalog entry `grevillea-robusta` of `treeDatabase.js`. -/
def grevilleaRobusta : TreeSpecies :=
  { id := "grevillea-robusta"
    commonName := "Grevillea robusta"
    tempRange := ⟨15, 30⟩
    rainfallRange := ⟨600, 1500⟩
    soilTypes := ["clay", "loam", "sandy"]
    growthRate := "fast"
    maxHeight := 30
    carbonSequestration := 45
    nitrogenFixing := true
    biodiversityValue := 85
    waterNeeds := "moderate" }

/-- Catalog entry `acacia-mearnsii` of `treeDatabase.js`. -/
def acaciaMearnsii : TreeSpecies :=
  { id := "acacia-mearnsii"
    commonName := "Acacia mearnsii"
    tempRange := ⟨10, 28⟩
    rainfallRange := ⟨700, 1800⟩
    soilTypes := ["clay", "loam"]
    growthRate := "very-fast"
    maxHeight := 25
    carbonSequestration := 55
    nitrogenFixing := true
    biodiversityValue := 90
    waterNeeds := "high" }

/-- Catalog entry `croton-megalocarpus` of `treeDatabase.js`. -/
def crotonMegalocarpus : TreeSpecies :=
  { id := "croton-megalocarpus"
    commonName := "Croton megalocarpus"
    tempRange := ⟨12, 26⟩
    rainfallRange := ⟨800, 1600⟩
    soilTypes := ["loam", "clay"]
    growthRate := "moderate"
    maxHeight := 35
    carbonSequestration := 50
    nitrogenFixing := false
    biodiversityValue := 95
    waterNeeds := "moderate" }

/-- Catalog entry `melia-volkensii` of `treeDatabase.js`. -/
def meliaVolkensii : TreeSpecies :=
  { id := "melia-volkensii"
    commonName := "Melia volkensii"
    tempRange := ⟨20, 35⟩
    rainfallRange := ⟨300, 900⟩
    soilTypes := ["sandy", "loam", "poor"]
    growthRate := "fast"
    maxHeight := 20
    carbonSequestration := 38
    nitrogenFixing := false
    biodiversityValue := 80
    waterNeeds := "very-low" }

/-- Catalog entry `markhamia-lutea` of `treeDatabase.js`. -/
def markhamiaLutea : TreeSpecies :=
  { id := "markhamia-lutea"
    commonName := "Markhamia lutea"
    tempRange := ⟨15, 30⟩
    rainfallRange := ⟨900, 1800⟩
    soilTypes := ["loam", "clay"]
    growthRate := "fast"
    maxHeight := 25
    carbonSequestration := 48
    nitrogenFixing := false
    biodiversityValue := 92
    waterNeeds := "moderate-high" }

/-- The full species catalog `TREE_DATABASE` of `treeDatabase.js`
(five entries, in source order). -/
def TREE_DATABASE : List TreeSpecies :=
  [grevilleaRobusta, acaciaMearnsii, crotonMegalocarpus, meliaVolkensii, markhamiaLutea]

/-- Character-list version of a starts-with test, used to embed JavaScript
`String.prototype.includes`. -/
def charsStartWith : List Char → List Char → Bool
  | [], _ => true
  | _ :: _, [] => false
  | a :: as, b :: bs => a == b && charsStartWith as bs

/-- Whether `needle` occurs contiguously inside `hay`. -/
def charsOccurIn (needle : List Char) : List Char → Bool
  | [] => needle.isEmpty
  | c :: rest => charsStartWith needle (c :: rest) || charsOccurIn needle rest

/-- Embedding of JavaScript `hay.includes(needle)` on strings. -/
def jsStringIncludes (hay needle : String) : Bool :=
  charsOccurIn needle.data hay.data

/-- The environmental context handed to the compatibility scorer: the
`{ location, climate, imageAnalysis }` object built in
`generateRecommendations` (recommendationService).  Only the fields the
scorer reads are kept. -/
structure ScoreContext where
  country : Option String := none
  region : Option String := none
  temperature : ℚ
  annualRainfall : ℚ
  soilMoistureLevel : Option String := none
  soilType : String
deriving Repr

/-- The fixed water-need / soil-moisture compatibility table of
`calculateCompatibilityScore` (recommendationService). -/
def moistureMatch (waterNeeds moistureLevel : String) : Bool :=
  (waterNeeds == "low" && moistureLevel == "dry")
  || (waterNeeds == "moderate" && (moistureLevel == "moderate" || moistureLevel == "moist"))
  || (waterNeeds == "high" && (moistureLevel == "moist" || moistureLevel == "wet"))

/-- The native-region test of `calculateCompatibilityScore`:
`tree.nativeRegions?.some(region => location.country?.toLowerCase().includes(region.toLowerCase()) || location.region?.toLowerCase().includes(region.toLowerCase()))`.
An absent `nativeRegions` list and absent country/region strings behave as
misses, matching JavaScript optional chaining. -/
def nativeRegionMatch (tree : TreeSpecies) (ctx : ScoreContext) : Bool :=
  (tree.nativeRegions.getD []).any fun region =>
    (match ctx.country with
     | some c => jsStringIncludes c.toLower region.toLower
     | none => false)
    || (match ctx.region with
        | some r => jsStringIncludes r.toLower region.toLower
        | none => false)

/-- Embedding of `calculateCompatibilityScore(tree, context)` from
`recommendationService`: starts at 100, deducts/awards the temperature (30),
rainfall (25), soil (15), soil-moisture (10), native-bonus (10),
biodiversity (5) and carbon (5) components, then clamps to [0, 100].
JavaScript truthiness of `tree.nativeBonus` is modelled by comparing the
defaulted value with 0. -/
def calculateCompatibilityScore (tree : TreeSpecies) (ctx : ScoreContext) : ℚ :=
  let score : ℚ := 100
  let tempMid := (tree.tempRange.min + tree.tempRange.max) / 2
  let tempDeviation := |ctx.temperature - tempMid|
  let tempMaxDeviation := (tree.tempRange.max - tree.tempRange.min) / 2
  let tempScore := max 0 (30 - (tempDeviation / tempMaxDeviation) * 30)
  let score := score - 30 + tempScore
  let score :=
    if ctx.annualRainfall < tree.rainfallRange.min || ctx.annualRainfall > tree.rainfallRange.max then
      score - 25
    else
      let rainMid := (tree.rainfallRange.min + tree.rainfallRange.max) / 2
      let rainDeviation := |ctx.annualRainfall - rainMid|
      let rainMaxDeviation := (tree.rainfallRange.max - tree.rainfallRange.min) / 2
      let rainScore := max 0 (25 - (rainDeviation / rainMaxDeviation) * 25)
      score - 25 + rainScore
  let score := if tree.soilTypes.contains ctx.soilType.toLower then score else score - 15
  let moistureLevel := ctx.soilMoistureLevel.getD "moderate"
  let score := if moistureMatch tree.waterNeeds moistureLevel then score else score - 10
  let score :=
    if tree.nativeBonus.getD 0 ≠ 0 then score + tree.nativeBonus.getD 0
    else if nativeRegionMatch tree ctx then score + 10
    else score
  let score := score + (tree.biodiversityValue / 100) * 5
  let score := score + (tree.carbonSequestration / 70) * 5
  max 0 (min 100 score)

/-- Embedding of `filterTreesByClimate(temperature, rainfall, toleranceBuffer)`
from `treeDataService`: each species' temperature bounds are widened by the
buffer on both sides, and its rainfall bounds by `toleranceBuffer * 40` mm on
both sides ("1 degree is about 40mm rain" scaling in the source). -/
def filterTreesByClimate (temperature rainfall : ℚ) (toleranceBuffer : ℚ := 0) :
    List TreeSpecies :=
  TREE_DATABASE.filter fun tree =>
    let tempMin := tree.tempRange.min - toleranceBuffer
    let tempMax := tree.tempRange.max + toleranceBuffer
    let rainBuffer := toleranceBuffer * 40
    let rainMin := tree.rainfallRange.min - rainBuffer
    let rainMax := tree.rainfallRange.max + rainBuffer
    let tempOk := decide (temperature ≥ tempMin) && decide (temperature ≤ tempMax)
    let rainOk := decide (rainfall ≥ rainMin) && decide (rainfall ≤ rainMax)
    tempOk && rainOk

/-- Embedding of `filterTreesBySoil(soilType, strict)` from `treeDataService`.
A falsy soil type (absent or empty string) returns the whole catalog.  In
strict mode only exact membership in the species' accepted soil list counts;
in relaxed mode the fixed adjacency table also accepts clay and sandy sites
for loam-tolerant species, loam sites for clay- or sandy-tolerant species,
and rocky sites for species whose `hardiness` is `high`. -/
def filterTreesBySoil (soilType : Option String) (strict : Bool := true) :
    List TreeSpecies :=
  match soilType with
  | none => TREE_DATABASE
  | some st =>
    if st.isEmpty then TREE_DATABASE
    else
      let normalizedSoil := st.toLower
      if strict then
        TREE_DATABASE.filter fun tree => tree.soilTypes.contains normalizedSoil
      else
        TREE_DATABASE.filter fun tree =>
          tree.soilTypes.contains normalizedSoil
          || (normalizedSoil == "clay" && tree.soilTypes.contains "loam")
          || (normalizedSoil == "sandy" && tree.soilTypes.contains "loam")
          || (normalizedSoil == "loam" &&
              (tree.soilTypes.contains "clay" || tree.soilTypes.contains "sandy"))
          || (normalizedSoil == "rocky" && tree.hardiness == some "high")

/-- The conditions object destructured by `getSuitableTrees` (treeDataService):
`{ temperature, rainfall, soilType, latitude, longitude, toleranceBuffer = 0,
relaxedSoil = false }`.  The extra `relaxed` field records the property of the
object that `generateRecommendations` (recommendationService) actually passes;
the destructuring in `getSuitableTrees` never reads it, so its value is
dropped there. -/
structure SuitableConditions where
  temperature : ℚ
  rainfall : ℚ
  soilType : Option String := none
  latitude : Option ℚ := none
  longitude : Option ℚ := none
  toleranceBuffer : ℚ := 0
  relaxedSoil : Bool := false
  relaxed : Bool := false
deriving Repr

/-- Static configuration flags read from `constants/config.js` (environment
driven, so modelled as parameters). -/
structure AppConfig where
  enableApiEnrichment : Bool := false
  useOpenAIEnhancement : Bool := true
  topRecommendationsCount : ℕ := 5
  openAIConfigured : Bool := false
deriving Repr

/-- JavaScript numeric truthiness of an optional coordinate: absent or zero
values are falsy. -/
def jsTruthyNum : Option ℚ → Bool
  | some x => decide (x ≠ 0)
  | none => false

/-- Embedding of `getSuitableTrees(conditions)` from `treeDataService`:
climate filter with tolerance, then soil filter (strict membership, or the
relaxed adjacency table when `relaxedSoil` is set), then the optional
API-backed nativeness enrichment.  The nativeness collaborator is an oracle;
`none` models the API call throwing (the source catches the error and
continues with the unenriched list). -/
def getSuitableTrees (cfg : AppConfig) (nativeOracle : Option (TreeSpecies → Bool))
    (conditions : SuitableConditions) : List TreeSpecies :=
  let suitableTrees := filterTreesByClimate conditions.temperature conditions.rainfall
    conditions.toleranceBuffer
  let suitableTrees :=
    match conditions.soilType with
    | none => suitableTrees
    | some st =>
      if st.isEmpty then suitableTrees
      else
        suitableTrees.filter fun tree =>
          if conditions.relaxedSoil then
            (filterTreesBySoil (some st) false).contains tree
          else
            tree.soilTypes.contains st.toLower
  if cfg.enableApiEnrichment && jsTruthyNum conditions.latitude
      && jsTruthyNum conditions.longitude then
    match nativeOracle with
    | some isNativeAt =>
      suitableTrees.map fun tree =>
        { tree with
            isNative := some (isNativeAt tree)
            nativeBonus := some (if isNativeAt tree then 20 else 0) }
    | none => suitableTrees
  else
    suitableTrees

/-- A scored candidate: a catalog entry spread together with the score fields
that `generateRecommendations` attaches (`compatibilityScore` from the local
scorer; `aiCompatibilityScore`, `aiRank` and `finalScore` from the blending
step).  `finalScore` is `none` while the field is still JavaScript
`undefined`. -/
structure ScoredTree where
  tree : TreeSpecies
  compatibilityScore : ℚ
  aiCompatibilityScore : Option ℚ := none
  aiRank : Option ℕ := none
  finalScore : Option ℚ := none
  fallbackSpecies : Bool := false
deriving DecidableEq, Repr

/-- Embedding of the hook's own `getHardyFallbackSpecies`
(useReforestation.js): filter the catalog for entries with
`hardiness === 'high'`, or `waterNeeds === 'low'`, or
`adaptability === 'high'`; keep the first five; assign each the fixed
compatibility and final score 60 and mark it as a fallback species. -/
def getHardyFallbackSpecies : List ScoredTree :=
  ((TREE_DATABASE.filter fun tree =>
      tree.hardiness == some "high"
      || tree.waterNeeds == "low"
      || tree.adaptability == some "high").take 5).map fun tree =>
    { tree := tree, compatibilityScore := 60, finalScore := some 60, fallbackSpecies := true }

/-- One entry of the `rankings` array in a parsed AI response
(openAIService `enhanceRecommendations` JSON contract). -/
structure AIRanking where
  treeId : String
  compatibilityScore : ℚ
  rank : ℕ := 0
deriving DecidableEq, Repr

/-- The optional `plantingStrategy` object of a parsed AI response.  The
`density` field models the result of matching the density string against the
pattern of two dash-separated numbers, as `calculateImpactMetrics` does. -/
structure AIStrategy where
  density : Option (ℕ × ℕ) := none
  bestMonths : List String := []
  spacing : String := ""
deriving DecidableEq, Repr

/-- The `data` payload of an `enhanceRecommendations` return value.  After a
JSON parse failure the source stores a raw-response object with no
`rankings` field; that case is `rankings := none`. -/
structure AIData where
  rankings : Option (List AIRanking) := none
  plantingStrategy : Option AIStrategy := none
deriving DecidableEq, Repr

/-- The value `enhanceRecommendations` resolves with: `success := false` for
any internally caught failure (network error, non-OK response), and
`success := true` with the parsed payload otherwise. -/
structure AIResult where
  success : Bool
  data : AIData := {}
deriving DecidableEq, Repr

/-- Outcome of the awaited `enhanceRecommendations` call as seen from
`generateRecommendations`: the promise either rejects (`threw`, handled by
the catch branch) or resolves with an `AIResult`. -/
inductive AICallOutcome
  | threw (msg : String)
  | returned (result : AIResult)
deriving Repr

/-- The per-tree mutation of the success branch of the AI block in
`generateRecommendations`: a candidate matched by id in the rankings gets the
external score fields and `finalScore = 0.4 * compatibilityScore + 0.6 *
externalScore`; an unmatched candidate gets `finalScore =
compatibilityScore`. -/
def assignAIScores (rankings : List AIRanking) (t : ScoredTree) : ScoredTree :=
  match rankings.find? (fun r => r.treeId == t.tree.id) with
  | some r =>
    { t with
        aiCompatibilityScore := some r.compatibilityScore
        aiRank := some r.rank
        finalScore := some (t.compatibilityScore * (4/10) + r.compatibilityScore * (6/10)) }
  | none => { t with finalScore := some t.compatibilityScore }

/-- Stable descending sort by `finalScore`, embedding the comparator
`(a, b) => b.finalScore - a.finalScore`.  All entries carry a `finalScore`
when this sort runs; `getD 0` only discharges the `Option`. -/
def sortByFinalScoreDesc (l : List ScoredTree) : List ScoredTree :=
  l.mergeSort fun a b => decide (b.finalScore.getD 0 ≤ a.finalScore.getD 0)

/-- Stable descending sort by `compatibilityScore`, embedding the comparator
`(a, b) => b.compatibilityScore - a.compatibilityScore`. -/
def sortByCompatDesc (l : List ScoredTree) : List ScoredTree :=
  l.mergeSort fun a b => decide (b.compatibilityScore ≤ a.compatibilityScore)

/-- Embedding of the AI-enhancement block of `generateRecommendations`
(recommendationService, step 3).  `gate` is the guard
`useAI && isOpenAIConfigured() && CONFIG.USE_OPENAI_ENHANCEMENT`.  When the
gate is closed, or the awaited call throws (catch branch), every entry gets
`finalScore := compatibilityScore`.  When the call resolves, the score
assignment and the re-sort run only under
`aiEnhancedData.success && aiEnhancedData.data.rankings`; otherwise the
list is left untouched (in particular `finalScore` stays unset).  The second
component is the `aiEnhancedData` variable after the block. -/
def aiEnhancementStep (gate : Bool) (outcome : AICallOutcome)
    (scored : List ScoredTree) : List ScoredTree × Option AIResult :=
  if gate then
    match outcome with
    | .threw _ =>
      (scored.map fun t => { t with finalScore := some t.compatibilityScore }, none)
    | .returned res =>
      if res.success then
        match res.data.rankings with
        | some rankings =>
          (sortByFinalScoreDesc (scored.map (assignAIScores rankings)), some res)
        | none => (scored, some res)
      else (scored, some res)
  else
    (scored.map fun t => { t with finalScore := some t.compatibilityScore }, none)

/-- Embedding of `calculateMixRatio(trees)` (recommendationService): the
primary species gets 45; each of up to three further species gets the floor
of the remaining 55 divided by their count.  The returned association list
models the ratios object keyed by common name (catalog common names are
pairwise distinct). -/
def calculateMixRatio (trees : List ScoredTree) : List (String × ℕ) :=
  match trees with
  | [] => []
  | primary :: rest =>
    let total : ℕ := 100
    let remaining := total - 45
    let othersCount := min rest.length 3
    let share := remaining / othersCount
    (primary.tree.commonName, 45) :: (rest.take othersCount).map fun t =>
      (t.tree.commonName, share)

/-- Sum of the ratios in a species mix. -/
def mixRatioSum (ratios : List (String × ℕ)) : ℕ :=
  (ratios.map Prod.snd).sum

/-- A planting strategy as produced by `generatePlantingStrategy`
(recommendationService).  `density` models the two numbers of the
density-range string (for example 300 and 400 out of the string of 300-400
trees per hectare); every rule-derived density carries two numbers, while an
AI-supplied density string may fail to match the pattern (`none`). -/
structure PlantingStrategy where
  density : Option (ℕ × ℕ)
  bestMonths : List String
  spacing : String
  mixRatio : List (String × ℕ)
  source : String
deriving DecidableEq, Repr

/-- The growth-rate lookup `{ slow: 1, moderate: 2, fast: 3, very-fast: 4 }`
with default 2 for unknown categories. -/
def growthRateValue (g : String) : ℚ :=
  if g == "slow" then 1
  else if g == "moderate" then 2
  else if g == "fast" then 3
  else if g == "very-fast" then 4
  else 2

/-- Embedding of `generatePlantingStrategy(trees, climateData, location,
aiStrategy)` (recommendationService).  A present AI strategy takes precedence
for density, months and spacing; the mix ratio is always rule-derived. -/
def generatePlantingStrategy (trees : List ScoredTree)
    (bestPlantingMonths : Option (List String)) (aiStrategy : Option AIStrategy) :
    PlantingStrategy :=
  match aiStrategy with
  | some a =>
    { density := a.density
      bestMonths := a.bestMonths
      spacing := a.spacing
      mixRatio := calculateMixRatio trees
      source := "ai" }
  | none =>
    let avgGrowthRate :=
      ((trees.map fun t => growthRateValue t.tree.growthRate).sum) / (trees.length : ℚ)
    let density : Option (ℕ × ℕ) :=
      if avgGrowthRate ≥ 35/10 then some (200, 300)
      else if avgGrowthRate ≥ 25/10 then some (300, 400)
      else some (400, 500)
    let bestMonths := bestPlantingMonths.getD ["March", "April", "May", "October", "November"]
    let avgHeight := ((trees.map fun t => t.tree.maxHeight).sum) / (trees.length : ℚ)
    let spacing :=
      if avgHeight > 25 then "4-6 meters"
      else if avgHeight > 15 then "3-4 meters"
      else "2-3 meters"
    { density := density
      bestMonths := bestMonths
      spacing := spacing
      mixRatio := calculateMixRatio trees
      source := "rules" }

/-- JavaScript `Math.round`: round half toward positive infinity. -/
def jsRound (x : ℚ) : ℤ := ⌊x + 1/2⌋

/-- The impact-metrics bundle of `calculateImpactMetrics`
(recommendationService), flattened. -/
structure ImpactMetrics where
  carbonYear1 : ℤ
  carbonYear10 : ℤ
  carbonPerTree : ℤ
  biodiversityScore : ℤ
  biodiversityLevel : String
  treesPerHectare : ℤ
  survivalRate : ℕ
  carbonCredits : ℤ
  timber : ℤ
  totalValue : ℤ
  soilImprovement : String
  habitatCreation : String
deriving DecidableEq, Repr

/-- Embedding of `calculateImpactMetrics(trees, densityStr)`
(recommendationService).  The density argument is the matched pair of the
density string (midpoint taken; 400 when the pattern does not match).
Year-10 carbon is `round(year1 * 10 * 0.95)` and the carbon economic value is
`year10 * 10`, exactly as in the source. -/
def calculateImpactMetrics (trees : List ScoredTree) (densityMatch : Option (ℕ × ℕ)) :
    ImpactMetrics :=
  let density : ℚ :=
    match densityMatch with
    | some (a, b) => ((a : ℚ) + (b : ℚ)) / 2
    | none => 400
  let avgCarbonPerTree :=
    ((trees.map fun t => t.tree.carbonSequestration).sum) / (trees.length : ℚ)
  let totalCarbonYear1 := jsRound (avgCarbonPerTree * density)
  let totalCarbon10Years := jsRound ((totalCarbonYear1 : ℚ) * 10 * (95/100))
  let avgBiodiversity :=
    jsRound (((trees.map fun t => t.tree.biodiversityValue).sum) / (trees.length : ℚ))
  let economicValue := totalCarbon10Years * 10
  { carbonYear1 := totalCarbonYear1
    carbonYear10 := totalCarbon10Years
    carbonPerTree := jsRound avgCarbonPerTree
    biodiversityScore := avgBiodiversity
    biodiversityLevel :=
      if avgBiodiversity ≥ 85 then "excellent"
      else if avgBiodiversity ≥ 70 then "good"
      else "moderate"
    treesPerHectare := jsRound density
    survivalRate := 95
    carbonCredits := economicValue
    timber := jsRound (density * 50)
    totalValue := jsRound ((economicValue : ℚ) + density * 50)
    soilImprovement := if trees.any (fun t => t.tree.nitrogenFixing) then "high" else "moderate"
    habitatCreation := if avgBiodiversity ≥ 80 then "excellent" else "good" }

/-- Location fields read by `generateRecommendations` and the scorer. -/
structure RecLocation where
  country : Option String := none
  region : Option String := none
  latitude : ℚ := 0
  longitude : ℚ := 0
deriving Repr

/-- Climate fields read by `generateRecommendations`: the current temperature,
annual rainfall estimate, soil-moisture level (optional chaining with default
moderate happens in the scorer) and the precomputed best planting months of
the suitability analysis. -/
structure RecClimate where
  temperature : ℚ
  annualRainfall : ℚ
  soilMoistureLevel : Option String := none
  bestPlantingMonths : Option (List String) := none
deriving Repr

/-- Parameter object of `generateRecommendations` (recommendationService);
`imageAnalysis` contributes its `soilType`.  The `enrichWithAPIs` option is
never set by the workflow hook and defaults to false, so the API-enrichment
step 5 is a no-op and is not modelled further. -/
structure RecParams where
  location : RecLocation
  climate : RecClimate
  soilType : String
  useAI : Bool := true
  relaxed : Bool := false
  toleranceBuffer : ℚ := 0
  manualLocation : Bool := false

/-- Result object of `generateRecommendations` and of the hook's
`generateRecommendationsWithFallback`. -/
structure RecResult where
  success : Bool
  error : Option String := none
  fallbackTrees : List TreeSpecies := []
  recommendations : List ScoredTree := []
  plantingStrategy : Option PlantingStrategy := none
  impactMetrics : Option ImpactMetrics := none
  aiEnhanced : Bool := false
  aiInsights : Option AIData := none
  fallbackMode : Bool := false
  warning : Option String := none

/-- Embedding of `generateRecommendations(params)` (recommendationService).
Note the conditions object handed to `getSuitableTrees`: it carries the
property `relaxed` (together with `toleranceBuffer`), while `getSuitableTrees`
destructures `relaxedSoil`, which is therefore left at its default `false`
whatever `relaxed` is. -/
def generateRecommendations (cfg : AppConfig) (nativeOracle : Option (TreeSpecies → Bool))
    (aiOutcome : AICallOutcome) (p : RecParams) : RecResult :=
  let suitableTrees := getSuitableTrees cfg nativeOracle
    { temperature := p.climate.temperature
      rainfall := p.climate.annualRainfall
      soilType := some p.soilType
      latitude := some p.location.latitude
      longitude := some p.location.longitude
      relaxed := p.relaxed
      toleranceBuffer := p.toleranceBuffer }
  if suitableTrees.isEmpty then
    { success := false
      error := some (if p.manualLocation then
          "No suitable trees found for this location. Try a different location or check climate data."
        else
          "No suitable trees found. Please enable GPS and take a new photo.")
      fallbackTrees := TREE_DATABASE.take 3 }
  else
    let ctx : ScoreContext :=
      { country := p.location.country
        region := p.location.region
        temperature := p.climate.temperature
        annualRainfall := p.climate.annualRainfall
        soilMoistureLevel := p.climate.soilMoistureLevel
        soilType := p.soilType }
    let scoredTrees := sortByCompatDesc (suitableTrees.map fun tree =>
      { tree := tree, compatibilityScore := calculateCompatibilityScore tree ctx })
    let gate := p.useAI && cfg.openAIConfigured && cfg.useOpenAIEnhancement
    let stepped := aiEnhancementStep gate aiOutcome scoredTrees
    let scoredTrees := stepped.1
    let aiEnhancedData := stepped.2
    let topRecommendations := scoredTrees.take cfg.topRecommendationsCount
    let aiStrategy := aiEnhancedData.bind fun r => r.data.plantingStrategy
    let plantingStrategy :=
      generatePlantingStrategy topRecommendations p.climate.bestPlantingMonths aiStrategy
    let impactMetrics := calculateImpactMetrics topRecommendations plantingStrategy.density
    { success := true
      recommendations := topRecommendations
      plantingStrategy := some plantingStrategy
      impactMetrics := some impactMetrics
      aiEnhanced := aiEnhancedData.elim false (fun r => r.success)
      aiInsights := aiEnhancedData.map (fun r => r.data) }

/-- Parameter object of the hook's `generateRecommendationsWithFallback`. -/
structure WorkflowRecParams where
  location : RecLocation
  climate : RecClimate
  soilType : String
  useAI : Bool := true
  usingFallbackLocation : Bool := false
  manualLocation : Bool := false

/-- The hard-coded planting strategy of the hook's hardy-species fallback
branch (tier 3). -/
def fallbackPlantingStrategy : PlantingStrategy :=
  { density := some (300, 400)
    bestMonths := ["March", "April", "May", "October", "November"]
    spacing := "3-4 meters"
    mixRatio := []
    source := "fallback" }

/-- The hard-coded impact metrics of the hook's hardy-species fallback
branch (tier 3). -/
def fallbackImpactMetrics : ImpactMetrics :=
  { carbonYear1 := 150
    carbonYear10 := 1425
    carbonPerTree := 5
    biodiversityScore := 70
    biodiversityLevel := "good"
    treesPerHectare := 350
    survivalRate := 90
    carbonCredits := 14250
    timber := 17500
    totalValue := 31750
    soilImprovement := "moderate"
    habitatCreation := "good" }

/-- The value returned by the hook's tier-3 (hardy species) branch. -/
def hardyFallbackResult : RecResult :=
  { success := true
    recommendations := getHardyFallbackSpecies
    fallbackMode := true
    warning := some "Showing general hardy species. Set exact location for better recommendations."
    plantingStrategy := some fallbackPlantingStrategy
    impactMetrics := some fallbackImpactMetrics }

/-- Embedding of the hook's `generateRecommendationsWithFallback(params)`
(useReforestation.js): tier 1 standard; tier 2 relaxed with tolerance buffer 5,
attempted only when tier 1 produced nothing and the location is approximate
(`usingFallbackLocation || manualLocation`); tier 3 the hardy-species
fallback. -/
def generateRecommendationsWithFallback (cfg : AppConfig)
    (nativeOracle : Option (TreeSpecies → Bool)) (aiOutcome : AICallOutcome)
    (p : WorkflowRecParams) : RecResult :=
  let standard := generateRecommendations cfg nativeOracle aiOutcome
    { location := p.location
      climate := p.climate
      soilType := p.soilType
      useAI := p.useAI
      manualLocation := p.manualLocation }
  if standard.success && !standard.recommendations.isEmpty then standard
  else
    let relaxedAttempt :=
      if p.usingFallbackLocation || p.manualLocation then
        some (generateRecommendations cfg nativeOracle aiOutcome
          { location := p.location
            climate := p.climate
            soilType := p.soilType
            useAI := p.useAI
            manualLocation := p.manualLocation
            relaxed := true
            toleranceBuffer := 5 })
      else none
    match relaxedAttempt with
    | some r =>
      if r.success && !r.recommendations.isEmpty then
        { r with
            fallbackMode := true
            warning := some "Using approximate location. Enable GPS for more accurate results." }
      else hardyFallbackResult
    | none => hardyFallbackResult

/-- Outcome of one awaited `fetchClimateData` call inside
`fetchClimateWithRetry` (climateService): the promise resolves with a success
object, resolves with a failure object (`success: false`), or rejects. -/
inductive FetchAttempt
  | ok
  | failedResult (err : String)
  | threw (err : String)
deriving DecidableEq, Repr

/-- Whether an attempt outcome counts as failed (either failure shape keeps
the retry loop going, only recording `lastError`). -/
def FetchAttempt.isFailed : FetchAttempt → Bool
  | .ok => false
  | .failedResult _ => true
  | .threw _ => true

/-- Observable trace of `fetchClimateWithRetry`: how many attempts ran, the
backoff delays awaited (in milliseconds, in order), and whether the returned
profile is the synthetic mock. -/
structure ClimateFetchTrace where
  attemptsMade : ℕ
  delays : List ℕ
  usedMock : Bool
deriving DecidableEq, Repr

/-- The loop `for (attempt = 1; attempt <= maxRetries; attempt++)` of
`fetchClimateWithRetry`, with the remaining iteration count as structural
fuel.  A failed attempt awaits `2 ^ (attempt - 1) * 1000` ms only when
`attempt < maxRetries`; when the loop ends without success the mock profile
is returned. -/
def retryGo (outcomes : ℕ → FetchAttempt) (maxRetries : ℕ) :
    ℕ → ℕ → List ℕ → ClimateFetchTrace
  | 0, attempt, delays =>
    { attemptsMade := attempt - 1, delays := delays, usedMock := true }
  | remaining + 1, attempt, delays =>
    match outcomes attempt with
    | .ok => { attemptsMade := attempt, delays := delays, usedMock := false }
    | .failedResult _ =>
      retryGo outcomes maxRetries remaining (attempt + 1)
        (if attempt < maxRetries then delays ++ [2 ^ (attempt - 1) * 1000] else delays)
    | .threw _ =>
      retryGo outcomes maxRetries remaining (attempt + 1)
        (if attempt < maxRetries then delays ++ [2 ^ (attempt - 1) * 1000] else delays)

/-- Embedding of `fetchClimateWithRetry(latitude, longitude, maxRetries = 3)`
(climateService), abstracted over the per-attempt outcomes. -/
def fetchClimateWithRetry (outcomes : ℕ → FetchAttempt) (maxRetries : ℕ := 3) :
    ClimateFetchTrace :=
  retryGo outcomes maxRetries maxRetries 1 []

/-- GPS payload produced by `extractGPSFromImage` or built by
`setManualLocation` (`hasGPS: false, source: 'manual'`). -/
structure GPSData where
  latitude : Option ℚ := none
  longitude : Option ℚ := none
  hasGPS : Bool := false
  source : String := "none"
deriving DecidableEq, Repr

/-- Image-analysis fields the pipeline reads. -/
structure ImageAnalysis where
  soilType : String
  vegetationLevel : String := "moderate"
deriving DecidableEq, Repr

/-- Result of the hook's local suitability heuristic (`calculateSuitability`);
its internals are not needed by any claim and the collaborator oracle
supplies the value. -/
structure Suitability where
  suitabilityScore : ℚ
  suitabilityLevel : String
deriving DecidableEq, Repr

/-- The accumulated workflow state of `useReforestation` (the `useState`
object), with the hook's initial values as field defaults.  File handles and
preview artifacts are opaque tokens. -/
structure WorkflowState where
  currentStep : String := "upload"
  imageFile : Option String := none
  imagePreview : Option String := none
  imageAnalysis : Option ImageAnalysis := none
  gpsData : Option GPSData := none
  locationData : Option RecLocation := none
  climateData : Option RecClimate := none
  climateAnalysis : Option RecClimate := none
  suitability : Option Suitability := none
  recommendations : Option (List ScoredTree) := none
  selectedTree : Option ScoredTree := none
  plantingStrategy : Option PlantingStrategy := none
  impactMetrics : Option ImpactMetrics := none
  aiInsights : Option AIData := none
  isLoading : Bool := false
  loadingMessage : String := ""
  error : Option String := none
  useAI : Bool := true
  openAIKey : String := ""
  needsManualLocation : Bool := false
  usingFallbackLocation : Bool := false
  natureValidation : Option String := none

/-- External collaborators of the workflow orchestrator, supplied as pure
oracles.  `analyzeClimate` models `climateService.analyzeClimate`; because the
analysis object is spread last over the raw fetch result and carries every
climate field the recommender reads (`annualRainfall`, the current
temperature, the soil-moisture level, the best planting months), the merged
climate handed to the recommender is the analysis output. -/
structure Collaborators where
  validateImage : String → Bool
  extractGPS : String → GPSData
  createPreview : String → String
  reverseGeocode : ℚ → ℚ → RecLocation
  analyzeImageBasic : String → ImageAnalysis
  fetchClimate : ℚ → ℚ → RecClimate
  analyzeClimate : RecClimate → RecClimate
  suitabilityOf : RecClimate → ImageAnalysis → Suitability
  nativeOracle : Option (TreeSpecies → Bool) := none
  aiOutcome : AICallOutcome := .returned { success := false }
  cfg : AppConfig := {}

/-- Named effects the orchestrator requests from collaborators, in invocation
order (the two members of each parallel pair are listed in launch order). -/
inductive Effect
  | validateImage (file : String)
  | extractGPS (file : String)
  | createPreview (file : String)
  | reverseGeocode (latitude longitude : ℚ)
  | analyzeImageBasic (file : String)
  | fetchClimate (latitude longitude : ℚ)
deriving DecidableEq, Repr

/-- Embedding of the hook's `processWithLocation(file, preview, gpsData,
isManual)` (useReforestation.js), on the mounted happy path: commit the GPS
data and preview, resolve place name and image analysis (parallel pair),
fetch climate with retry, analyze climate and suitability, run the
escalation controller, then commit results or record the failure.  The
second component is the list of collaborator effects requested, in order. -/
def processWithLocation (c : Collaborators) (file : String) (preview : Option String)
    (gps : GPSData) (isManual : Bool) (s : WorkflowState) : WorkflowState × List Effect :=
  let s1 := { s with
    gpsData := some gps
    imagePreview := preview
    usingFallbackLocation := isManual
    loadingMessage := "Analyzing location and image..."
    isLoading := true
    currentStep := "analyzing"
    needsManualLocation := false }
  let lat := gps.latitude.getD 0
  let lon := gps.longitude.getD 0
  let locationData := c.reverseGeocode lat lon
  let imageAnalysis := c.analyzeImageBasic file
  let s2 := { s1 with
    locationData := some locationData
    imageAnalysis := some imageAnalysis
    loadingMessage := "Fetching climate data..." }
  let climateData := c.fetchClimate lat lon
  let climateAnalysis := c.analyzeClimate climateData
  let suitability := c.suitabilityOf climateAnalysis imageAnalysis
  let s3 := { s2 with
    climateData := some climateData
    climateAnalysis := some climateAnalysis
    suitability := some suitability
    loadingMessage := "Generating tree recommendations..." }
  let recResult := generateRecommendationsWithFallback c.cfg c.nativeOracle c.aiOutcome
    { location := locationData
      climate := climateAnalysis
      soilType := imageAnalysis.soilType
      useAI := s.useAI && c.cfg.openAIConfigured
      usingFallbackLocation := isManual
      manualLocation := isManual }
  let effs : List Effect :=
    [.reverseGeocode lat lon, .analyzeImageBasic file, .fetchClimate lat lon]
  let finalState :=
    if recResult.success && !recResult.recommendations.isEmpty then
      { s3 with
          recommendations := some recResult.recommendations
          selectedTree := recResult.recommendations.head?
          plantingStrategy := recResult.plantingStrategy
          impactMetrics := recResult.impactMetrics
          aiInsights := recResult.aiInsights
          currentStep := "results"
          isLoading := false
          loadingMessage := "" }
    else
      { s3 with
          error := some (if !recResult.success then
              recResult.error.getD "Failed to generate recommendations"
            else "No suitable trees found for this location")
          isLoading := false
          loadingMessage := ""
          currentStep := "processing" }
  (finalState, effs)

/-- Embedding of the hook's `handleImageUpload(file)` for a non-null file:
validate, then extract GPS and create the preview (parallel pair); when no
GPS coordinates are found, suspend in the awaiting-location configuration
(`needsManualLocation`) keeping the file and preview; otherwise chain into
`processWithLocation`. -/
def handleImageUpload (c : Collaborators) (file : String) (s : WorkflowState) :
    WorkflowState × List Effect :=
  let s1 := { s with
    isLoading := true
    loadingMessage := "Validating image..."
    error := none
    currentStep := "processing"
    imageFile := some file
    needsManualLocation := false }
  if !(c.validateImage file) then
    ({ s1 with
        error := some "nature validation failed"
        isLoading := false
        loadingMessage := ""
        currentStep := "upload"
        imageFile := none }, [.validateImage file])
  else
    let s2 := { s1 with
      natureValidation := some "passed"
      loadingMessage := "Processing image..." }
    let gpsData := c.extractGPS file
    let preview := c.createPreview file
    let effs : List Effect := [.validateImage file, .extractGPS file, .createPreview file]
    if !gpsData.hasGPS then
      ({ s2 with
          gpsData := some gpsData
          imagePreview := some preview
          needsManualLocation := true
          usingFallbackLocation := true
          isLoading := false
          loadingMessage := "Please set your location to continue..."
          currentStep := "processing" }, effs)
    else
      let continued := processWithLocation c file (some preview) gpsData false s2
      (continued.1, effs ++ continued.2)

/-- Embedding of the hook's `setManualLocation(latitude, longitude)`
(useReforestation.js): with no held image file it only records an error;
otherwise it builds the manual GPS payload and resumes `processWithLocation`
with the held file and the held preview. -/
def setManualLocation (c : Collaborators) (latitude longitude : ℚ) (s : WorkflowState) :
    WorkflowState × List Effect :=
  match s.imageFile with
  | none => ({ s with error := some "Please upload an image first" }, [])
  | some currentFile =>
    let s1 := { s with
      isLoading := true
      loadingMessage := "Processing with your location..."
      error := none
      needsManualLocation := false }
    let manualGpsData : GPSData :=
      { latitude := some latitude
        longitude := some longitude
        hasGPS := false
        source := "manual" }
    processWithLocation c currentFile s.imagePreview manualGpsData true s1

/-- Embedding of the hook's `resetWorkflow`: the full `setState` literal,
which restores every pipeline field to its initial value while carrying over
the current `useAI` and `openAIKey`. -/
def resetWorkflow (s : WorkflowState) : WorkflowState :=
  { currentStep := "upload"
    imageFile := none
    imagePreview := none
    imageAnalysis := none
    gpsData := none
    locationData := none
    climateData := none
    climateAnalysis := none
    suitability := none
    recommendations := none
    selectedTree := none
    plantingStrategy := none
    impactMetrics := none
    aiInsights := none
    isLoading := false
    loadingMessage := ""
    error := none
    useAI := s.useAI
    openAIKey := s.openAIKey
    needsManualLocation := false
    usingFallbackLocation := false
    natureValidation := none }

/-- A scored candidate with only the local compatibility score attached, as
after step 2 of `generateRecommendations`. -/
def scoredOf (t : TreeSpecies) (q : ℚ) : ScoredTree :=
  { tree := t, compatibilityScore := q }

/-- Example location (Nairobi-like coordinates). -/
def exampleLocation : RecLocation :=
  { country := some "Kenya", latitude := -1, longitude := 36 }

/-- An arid climate reading: 22 degrees, 50 mm annual rainfall, below every
catalog species' tolerated rainfall range even after the relaxed buffer. -/
def aridClimateExample : RecClimate :=
  { temperature := 22, annualRainfall := 50 }

/-- Escalation-controller parameters for the arid example with an
approximate (manual) location, so that all three tiers are exercised. -/
def aridWorkflowParams : WorkflowRecParams :=
  { location := exampleLocation
    climate := aridClimateExample
    soilType := "loam"
    useAI := false
    usingFallbackLocation := true
    manualLocation := true }

/-- The conditions object that `generateRecommendations` hands to
`getSuitableTrees` in relaxed mode for a sandy site at 22 degrees / 1000 mm:
`relaxed := true` and `toleranceBuffer := 5` are set, `relaxedSoil` is left at
its default. -/
def relaxedConditionsExample : SuitableConditions :=
  { temperature := 22
    rainfall := 1000
    soilType := some "sandy"
    latitude := some (-1)
    longitude := some 36
    relaxed := true
    toleranceBuffer := 5 }

/-- The year-10 accumulation described by the specification (year-1
sequestration accumulated over ten years under a 0.95 compounding survival
factor), stated from the spec's words for comparison with the code's
`year1 * 10 * 0.95`. -/
def specCompoundedYear10 (year1 : ℚ) : ℚ :=
  ((List.range 10).map fun k => year1 * (95/100) ^ k).sum

/-- An attempt oracle on which every climate fetch fails. -/
def allAttemptsFail : ℕ → FetchAttempt :=
  fun _ => .failedResult "network error"

/-- Concrete scored candidate used in the blending examples. -/
def exampleScored80 : ScoredTree := scoredOf grevilleaRobusta 80

/-- Concrete external ranking matching `exampleScored80` by id. -/
def exampleRanking : AIRanking :=
  { treeId := "grevillea-robusta", compatibilityScore := 90 }

/-- Concrete collaborator bundle for workflow examples. -/
def witnessCollaborators : Collaborators :=
  { validateImage := fun _ => true
    extractGPS := fun _ => { hasGPS := false, source := "none" }
    createPreview := fun f => f ++ "-preview"
    reverseGeocode := fun _ _ => exampleLocation
    analyzeImageBasic := fun _ => { soilType := "loam" }
    fetchClimate := fun _ _ => { temperature := 22, annualRainfall := 1000 }
    analyzeClimate := fun cl => cl
    suitabilityOf := fun _ _ => { suitabilityScore := 70, suitabilityLevel := "good" } }

/-- A workflow state suspended in the awaiting-location configuration: an
image was uploaded and validated, GPS extraction found no coordinates, the
file and preview are held. -/
def suspendedStateExample : WorkflowState :=
  { currentStep := "processing"
    imageFile := some "site-photo.jpg"
    imagePreview := some "site-photo.jpg-preview"
    gpsData := some { hasGPS := false, source := "none" }
    needsManualLocation := true
    usingFallbackLocation := true
    isLoading := false
    loadingMessage := "Please set your location to continue..."
    natureValidation := some "passed" }

/-- The AI-score assignment keeps the underlying catalog record. -/
theorem assignAIScores_tree (rankings : List AIRanking) (t : ScoredTree) :
    (assignAIScores rankings t).tree = t.tree := by
  cases h : rankings.find? (fun r => r.treeId == t.tree.id) <;> simp [assignAIScores, h]

/-- The AI-score assignment keeps the local compatibility score. -/
theorem assignAIScores_compat (rankings : List AIRanking) (t : ScoredTree) :
    (assignAIScores rankings t).compatibilityScore = t.compatibilityScore := by
  cases h : rankings.find? (fun r => r.treeId == t.tree.id) <;> simp [assignAIScores, h]

/-- C3: for every species record and every context (any temperature,
rainfall, soil type, moisture level, location, native bonus, biodiversity
value and carbon rate), the compatibility scorer returns a value between 0
and 100 inclusive. -/
theorem calculateCompatibilityScore_bounds (tree : TreeSpecies) (ctx : ScoreContext) :
    0 ≤ calculateCompatibilityScore tree ctx ∧ calculateCompatibilityScore tree ctx ≤ 100 := by
  unfold calculateCompatibilityScore
  exact ⟨le_max_left 0 _, max_le (by norm_num) (min_le_left 100 _)⟩

set_option maxRecDepth 8000 in
/-- C1, evaluated on the shipped catalog: the catalog is non-empty, yet the
hook's hardy-fallback selection is empty (no entry has `hardiness = high`,
`waterNeeds = low` or `adaptability = high`), so on an arid input where the
standard and relaxed tiers are empty the escalation controller reports
success with an empty recommendation list. -/
theorem hardy_fallback_empty_on_catalog :
    TREE_DATABASE ≠ [] ∧
    getHardyFallbackSpecies = [] ∧
    (generateRecommendationsWithFallback {} none (.returned { success := false })
        aridWorkflowParams).success = true ∧
    (generateRecommendationsWithFallback {} none (.returned { success := false })
        aridWorkflowParams).recommendations = [] := by
  refine ⟨by decide, by decide, by with_unfolding_all decide, by with_unfolding_all decide⟩

/-- C2, evaluated at the failing inputs: when the reasoning call resolves
with a failure result (network errors are caught inside
`enhanceRecommendations`), or resolves successfully but without a parseable
`rankings` list, the candidate list is returned unchanged and `finalScore`
remains unset (`none`) instead of becoming the base score; only the
disabled/unconfigured gate and the catch branch assign
`finalScore = compatibilityScore`. -/
theorem ai_failure_leaves_finalScore_unset :
    (aiEnhancementStep true (.returned { success := false }) [scoredOf grevilleaRobusta 72]).1
      = [scoredOf grevilleaRobusta 72] ∧
    (scoredOf grevilleaRobusta 72).finalScore = none ∧
    (aiEnhancementStep true
        (.returned { success := true, data := { rankings := none } })
        [scoredOf grevilleaRobusta 72]).1
      = [scoredOf grevilleaRobusta 72] ∧
    (aiEnhancementStep false (.returned { success := false })
        [scoredOf grevilleaRobusta 72]).1
      = [{ scoredOf grevilleaRobusta 72 with finalScore := some 72 }] ∧
    (aiEnhancementStep true (.threw "request failed")
        [scoredOf grevilleaRobusta 72]).1
      = [{ scoredOf grevilleaRobusta 72 with finalScore := some 72 }] := by
  refine ⟨by decide, by decide, by decide, by decide, by decide⟩

set_option maxRecDepth 8000 in
/-- C5, evaluated at a concrete relaxed-tier run (22 degrees, 1000 mm, sandy
soil, buffer 5): Acacia mearnsii passes the widened climate filter and is
accepted by the relaxed soil adjacency table (sandy accepts loam-tolerant
species), yet `getSuitableTrees` excludes it, because the conditions object
built by `generateRecommendations` sets `relaxed` while `getSuitableTrees`
destructures `relaxedSoil`, leaving soil matching strict. -/
theorem relaxed_tier_soil_stays_strict :
    relaxedConditionsExample.relaxed = true ∧
    relaxedConditionsExample.relaxedSoil = false ∧
    acaciaMearnsii ∈ filterTreesByClimate 22 1000 5 ∧
    acaciaMearnsii ∈ filterTreesBySoil (some "sandy") false ∧
    acaciaMearnsii ∉ getSuitableTrees {} none relaxedConditionsExample := by
  refine ⟨rfl, rfl, by with_unfolding_all decide, by with_unfolding_all decide,
    by with_unfolding_all decide⟩

/-- C6, evaluated at concrete recommended sets: the species-mix ratios sum to
99 for three species (45 + 27 + 27) and to 45 for a single species; only the
two-species case reaches 100, because the remaining 55 percent is divided
with floor division and the remainder is dropped. -/
theorem mix_ratio_sum_not_100 :
    mixRatioSum (calculateMixRatio
      [scoredOf grevilleaRobusta 90, scoredOf acaciaMearnsii 85,
       scoredOf crotonMegalocarpus 80]) = 99 ∧
    mixRatioSum (calculateMixRatio [scoredOf grevilleaRobusta 90]) = 45 ∧
    mixRatioSum (calculateMixRatio
      [scoredOf grevilleaRobusta 90, scoredOf acaciaMearnsii 85]) = 100 := by
  refine ⟨by decide, by decide, by decide⟩

/-- C4: when the external reasoning call succeeds with a parseable rankings
list, the output of the blending step is a permutation of the assigned list,
is sorted descending by `finalScore`, and every entry carries
`finalScore = 0.4 * baseScore + 0.6 * externalScore` when its id is matched
by the rankings and `finalScore = baseScore` otherwise. -/
theorem blend_success_formula_and_resort (scored : List ScoredTree)
    (rankings : List AIRanking) :
    ((aiEnhancementStep true
        (.returned { success := true, data := { rankings := some rankings } }) scored).1).Perm
      (scored.map (assignAIScores rankings)) ∧
    List.Sorted (fun a b : ScoredTree => b.finalScore.getD 0 ≤ a.finalScore.getD 0)
      ((aiEnhancementStep true
        (.returned { success := true, data := { rankings := some rankings } }) scored).1) ∧
    ∀ e ∈ (aiEnhancementStep true
        (.returned { success := true, data := { rankings := some rankings } }) scored).1,
      e.finalScore = some (match rankings.find? (fun r => r.treeId == e.tree.id) with
        | some r => e.compatibilityScore * (4/10) + r.compatibilityScore * (6/10)
        | none => e.compatibilityScore) := by
  have hstep : (aiEnhancementStep true
      (.returned { success := true, data := { rankings := some rankings } }) scored).1
      = (scored.map (assignAIScores rankings)).mergeSort
          (fun a b => decide (b.finalScore.getD 0 ≤ a.finalScore.getD 0)) := rfl
  refine ⟨?_, ?_, ?_⟩
  · rw [hstep]
    exact List.mergeSort_perm _ _
  · rw [hstep]
    have hp := @List.sorted_mergeSort ScoredTree
      (fun a b : ScoredTree => decide (b.finalScore.getD 0 ≤ a.finalScore.getD 0))
      (fun a b c hab hbc => by
        simp only [decide_eq_true_eq] at hab hbc ⊢
        exact le_trans hbc hab)
      (fun a b => by
        simp only [Bool.or_eq_true, decide_eq_true_eq]
        exact le_total (b.finalScore.getD 0) (a.finalScore.getD 0))
      (scored.map (assignAIScores rankings))
    exact List.Pairwise.imp (fun h => by simpa using h) hp
  · intro e he
    rw [hstep, List.mem_mergeSort] at he
    obtain ⟨t, ht, rfl⟩ := List.mem_map.mp he
    rw [assignAIScores_tree, assignAIScores_compat]
    cases h : rankings.find? (fun r => r.treeId == t.tree.id) with
    | none => simp [assignAIScores, h]
    | some r => simp [assignAIScores, h]

set_option maxRecDepth 8000 in
/-- Witness for C4: a concrete matched candidate inside the blended output
(base score 80, external score 90, blend 0.4 * 80 + 0.6 * 90 = 86). -/
theorem blend_success_formula_and_resort_witness :
    (assignAIScores [exampleRanking] exampleScored80).finalScore
      = some (match [exampleRanking].find?
          (fun r => r.treeId == (assignAIScores [exampleRanking] exampleScored80).tree.id) with
        | some r => (assignAIScores [exampleRanking] exampleScored80).compatibilityScore * (4/10)
            + r.compatibilityScore * (6/10)
        | none => (assignAIScores [exampleRanking] exampleScored80).compatibilityScore) :=
  (blend_success_formula_and_resort [exampleScored80] [exampleRanking]).2.2
    (assignAIScores [exampleRanking] exampleScored80) (by with_unfolding_all decide)

/-- Counterexample for C7 at a one-species set with density range 400-500:
the code computes year-10 sequestration 192375 = round(20250 * 10 * 0.95),
which differs from the compounded accumulation the claim describes
(round of the 0.95-compounded ten-year sum of 20250 is 162512), and the code
computes a carbon economic value of 1923750 = year10 * 10 rather than the
claimed (year10 / 1000) * price 10 = 1923.75. -/
theorem impact_metrics_counterexample :
    (calculateImpactMetrics [scoredOf grevilleaRobusta 90] (some (400, 500))).carbonYear1
      = 20250 ∧
    (calculateImpactMetrics [scoredOf grevilleaRobusta 90] (some (400, 500))).carbonYear10
      = 192375 ∧
    jsRound (specCompoundedYear10 20250) = 162512 ∧
    (162512 : ℤ) ≠ 192375 ∧
    (calculateImpactMetrics [scoredOf grevilleaRobusta 90] (some (400, 500))).carbonCredits
      = 1923750 ∧
    ((192375 : ℚ) / 1000) * 10 ≠ (1923750 : ℚ) := by
  refine ⟨by with_unfolding_all decide, by with_unfolding_all decide,
    by with_unfolding_all decide, by decide,
    by with_unfolding_all decide, by with_unfolding_all decide⟩

/-- C7 (amended): for a non-empty recommended set and a matched density
range, year-1 sequestration is the rounded product of the average per-tree
carbon rate and the density midpoint; year-10 is round(year-1 * 10 * 0.95),
a flat 5 percent attrition by simple multiplication; biodiversity is the
rounded arithmetic mean of the included species' biodiversity values; and
the carbon economic value is year-10 (in kg) times 10, with no kilogram to
ton conversion. -/
theorem impact_metrics_formulas (trees : List ScoredTree) (a b : ℕ) (_h : trees ≠ []) :
    (calculateImpactMetrics trees (some (a, b))).carbonYear1
      = jsRound ((((trees.map fun t => t.tree.carbonSequestration).sum) / (trees.length : ℚ))
          * (((a : ℚ) + (b : ℚ)) / 2)) ∧
    (calculateImpactMetrics trees (some (a, b))).carbonYear10
      = jsRound (((calculateImpactMetrics trees (some (a, b))).carbonYear1 : ℚ)
          * 10 * (95/100)) ∧
    (calculateImpactMetrics trees (some (a, b))).biodiversityScore
      = jsRound (((trees.map fun t => t.tree.biodiversityValue).sum) / (trees.length : ℚ)) ∧
    (calculateImpactMetrics trees (some (a, b))).carbonCredits
      = (calculateImpactMetrics trees (some (a, b))).carbonYear10 * 10 := by
  refine ⟨rfl, rfl, rfl, rfl⟩

/-- Witness for C7 (amended) at the one-species set with density 400-500. -/
theorem impact_metrics_formulas_witness :
    (calculateImpactMetrics [scoredOf grevilleaRobusta 90] (some (400, 500))).carbonYear1
      = jsRound (((([scoredOf grevilleaRobusta 90].map
            fun t => t.tree.carbonSequestration).sum)
          / (([scoredOf grevilleaRobusta 90] : List ScoredTree).length : ℚ))
          * (((400 : ℚ) + (500 : ℚ)) / 2)) ∧
    (calculateImpactMetrics [scoredOf grevilleaRobusta 90] (some (400, 500))).carbonYear10
      = jsRound (((calculateImpactMetrics [scoredOf grevilleaRobusta 90]
            (some (400, 500))).carbonYear1 : ℚ) * 10 * (95/100)) ∧
    (calculateImpactMetrics [scoredOf grevilleaRobusta 90] (some (400, 500))).biodiversityScore
      = jsRound ((([scoredOf grevilleaRobusta 90].map
            fun t => t.tree.biodiversityValue).sum)
          / (([scoredOf grevilleaRobusta 90] : List ScoredTree).length : ℚ)) ∧
    (calculateImpactMetrics [scoredOf grevilleaRobusta 90] (some (400, 500))).carbonCredits
      = (calculateImpactMetrics [scoredOf grevilleaRobusta 90]
            (some (400, 500))).carbonYear10 * 10 :=
  impact_metrics_formulas [scoredOf grevilleaRobusta 90] 400 500 (by decide)

/-- One failed iteration of the retry loop: the loop moves to the next
attempt, recording the backoff delay only when another attempt is still to
come. -/
theorem retryGo_step_failed (outcomes : ℕ → FetchAttempt)
    (maxRetries remaining attempt : ℕ) (delays : List ℕ)
    (h : (outcomes attempt).isFailed = true) :
    retryGo outcomes maxRetries (remaining + 1) attempt delays =
      retryGo outcomes maxRetries remaining (attempt + 1)
        (if attempt < maxRetries then delays ++ [2 ^ (attempt - 1) * 1000] else delays) := by
  cases ho : outcomes attempt with
  | ok => rw [ho] at h; exact absurd h (by decide)
  | failedResult e => simp [retryGo, ho]
  | threw e => simp [retryGo, ho]

/-- Counterexample for C8: when every attempt fails, the retry loop makes
exactly three attempts but awaits only the delays 1000 ms and 2000 ms — the
4000 ms delay of the claimed 1s/2s/4s schedule never occurs, because no wait
follows the final attempt — and then returns the mock profile. -/
theorem climate_retry_counterexample :
    (fetchClimateWithRetry allAttemptsFail 3).delays = [1000, 2000] ∧
    (4000 : ℕ) ∉ (fetchClimateWithRetry allAttemptsFail 3).delays ∧
    (fetchClimateWithRetry allAttemptsFail 3).attemptsMade = 3 ∧
    (fetchClimateWithRetry allAttemptsFail 3).usedMock = true := by
  refine ⟨by decide, by decide, by decide, by decide⟩

/-- C8 (amended): with the default `maxRetries = 3`, when the first, second
and third fetch attempts all fail, the climate fetch makes exactly three
attempts, waits 1000 ms after the first failure and 2000 ms after the second
(exponential backoff, with no wait after the final attempt, so the 4-second
delay is never awaited), and returns the synthetic mock climate profile
instead of propagating the failure. -/
theorem climate_retry_all_fail (outcomes : ℕ → FetchAttempt)
    (h1 : (outcomes 1).isFailed = true) (h2 : (outcomes 2).isFailed = true)
    (h3 : (outcomes 3).isFailed = true) :
    fetchClimateWithRetry outcomes 3 =
      { attemptsMade := 3, delays := [1000, 2000], usedMock := true } := by
  show retryGo outcomes 3 (2 + 1) 1 [] = _
  rw [retryGo_step_failed outcomes 3 2 1 [] h1]
  show retryGo outcomes 3 (1 + 1) (1 + 1) _ = _
  rw [retryGo_step_failed outcomes 3 1 (1 + 1) _ h2]
  show retryGo outcomes 3 (0 + 1) (1 + 1 + 1) _ = _
  rw [retryGo_step_failed outcomes 3 0 (1 + 1 + 1) _ h3]
  show retryGo outcomes 3 0 (1 + 1 + 1 + 1) _ = _
  rw [retryGo]
  norm_num

/-- Witness for C8 (amended) on the everywhere-failing attempt oracle. -/
theorem climate_retry_all_fail_witness :
    fetchClimateWithRetry allAttemptsFail 3 =
      { attemptsMade := 3, delays := [1000, 2000], usedMock := true } :=
  climate_retry_all_fail allAttemptsFail (by decide) (by decide) (by decide)

/-- The effect trace of `processWithLocation` starts at place resolution and
image analysis and continues with the climate fetch; no validation or GPS
extraction step occurs in it. -/
theorem processWithLocation_effects (c : Collaborators) (file : String)
    (preview : Option String) (gps : GPSData) (isManual : Bool) (s : WorkflowState) :
    (processWithLocation c file preview gps isManual s).2 =
      [Effect.reverseGeocode (gps.latitude.getD 0) (gps.longitude.getD 0),
       Effect.analyzeImageBasic file,
       Effect.fetchClimate (gps.latitude.getD 0) (gps.longitude.getD 0)] := rfl

/-- The state committed by `processWithLocation` holds exactly the preview it
was handed. -/
theorem processWithLocation_preview (c : Collaborators) (file : String)
    (preview : Option String) (gps : GPSData) (isManual : Bool) (s : WorkflowState) :
    (processWithLocation c file preview gps isManual s).1.imagePreview = preview := by
  unfold processWithLocation
  dsimp only
  split <;> rfl

/-- The image file held in the state is untouched by `processWithLocation`. -/
theorem processWithLocation_imageFile (c : Collaborators) (file : String)
    (preview : Option String) (gps : GPSData) (isManual : Bool) (s : WorkflowState) :
    (processWithLocation c file preview gps isManual s).1.imageFile = s.imageFile := by
  unfold processWithLocation
  dsimp only
  split <;> rfl

/-- C9: resuming a suspended workflow with caller-supplied coordinates runs
exactly place resolution, image analysis and the climate fetch — file
validation, GPS extraction and preview creation are never re-run — and the
held image file and preview are reused unchanged. -/
theorem setManualLocation_resumes (c : Collaborators) (la lo : ℚ) (s : WorkflowState)
    (file : String) (h : s.imageFile = some file) :
    (setManualLocation c la lo s).2 =
      [Effect.reverseGeocode la lo, Effect.analyzeImageBasic file, Effect.fetchClimate la lo] ∧
    (∀ f, Effect.validateImage f ∉ (setManualLocation c la lo s).2) ∧
    (∀ f, Effect.extractGPS f ∉ (setManualLocation c la lo s).2) ∧
    (∀ f, Effect.createPreview f ∉ (setManualLocation c la lo s).2) ∧
    (setManualLocation c la lo s).1.imagePreview = s.imagePreview ∧
    (setManualLocation c la lo s).1.imageFile = s.imageFile := by
  have hm : setManualLocation c la lo s
      = processWithLocation c file s.imagePreview
          { latitude := some la, longitude := some lo, hasGPS := false, source := "manual" } true
          { s with isLoading := true
                   loadingMessage := "Processing with your location..."
                   error := none
                   needsManualLocation := false } := by
    unfold setManualLocation
    rw [h]
  have heffs : (setManualLocation c la lo s).2 =
      [Effect.reverseGeocode la lo, Effect.analyzeImageBasic file, Effect.fetchClimate la lo] := by
    rw [hm, processWithLocation_effects]
    rfl
  refine ⟨heffs, ?_, ?_, ?_, ?_, ?_⟩
  · intro f hf; rw [heffs] at hf; simp at hf
  · intro f hf; rw [heffs] at hf; simp at hf
  · intro f hf; rw [heffs] at hf; simp at hf
  · rw [hm, processWithLocation_preview]
  · rw [hm, processWithLocation_imageFile]

/-- Witness for C9 on a concrete suspended state: the resume trace and the
reused file and preview, with the held-file hypothesis discharged by
computation. -/
theorem setManualLocation_resumes_witness :
    (setManualLocation witnessCollaborators (-1) 36 suspendedStateExample).2 =
      [Effect.reverseGeocode (-1) 36, Effect.analyzeImageBasic "site-photo.jpg",
       Effect.fetchClimate (-1) 36] ∧
    (setManualLocation witnessCollaborators (-1) 36 suspendedStateExample).1.imagePreview
      = suspendedStateExample.imagePreview ∧
    (setManualLocation witnessCollaborators (-1) 36 suspendedStateExample).1.imageFile
      = suspendedStateExample.imageFile :=
  ⟨(setManualLocation_resumes witnessCollaborators (-1) 36 suspendedStateExample
      "site-photo.jpg" rfl).1,
   (setManualLocation_resumes witnessCollaborators (-1) 36 suspendedStateExample
      "site-photo.jpg" rfl).2.2.2.2.1,
   (setManualLocation_resumes witnessCollaborators (-1) 36 suspendedStateExample
      "site-photo.jpg" rfl).2.2.2.2.2⟩

/-- C10: `resetWorkflow` returns the state machine to the upload step and
clears every accumulated pipeline field, while `useAI` and `openAIKey` keep
their prior values across the reset. -/
theorem resetWorkflow_clears_and_keeps (s : WorkflowState) :
    (resetWorkflow s).currentStep = "upload" ∧
    (resetWorkflow s).imageFile = none ∧
    (resetWorkflow s).imagePreview = none ∧
    (resetWorkflow s).imageAnalysis = none ∧
    (resetWorkflow s).gpsData = none ∧
    (resetWorkflow s).locationData = none ∧
    (resetWorkflow s).climateData = none ∧
    (resetWorkflow s).climateAnalysis = none ∧
    (resetWorkflow s).suitability = none ∧
    (resetWorkflow s).recommendations = none ∧
    (resetWorkflow s).selectedTree = none ∧
    (resetWorkflow s).plantingStrategy = none ∧
    (resetWorkflow s).impactMetrics = none ∧
    (resetWorkflow s).aiInsights = none ∧
    (resetWorkflow s).isLoading = false ∧
    (resetWorkflow s).loadingMessage = "" ∧
    (resetWorkflow s).error = none ∧
    (resetWorkflow s).needsManualLocation = false ∧
    (resetWorkflow s).usingFallbackLocation = false ∧
    (resetWorkflow s).natureValidation = none ∧
    (resetWorkflow s).useAI = s.useAI ∧
    (resetWorkflow s).openAIKey = s.openAIKey :=
  ⟨rfl, rfl, rfl, rfl, rfl, rfl, rfl, rfl, rfl, rfl, rfl,
   rfl, rfl, rfl, rfl, rfl, rfl, rfl, rfl, rfl, rfl, rfl⟩
